import Mathlib

/-!
Shallow embedding of the Salto Salesforce custom-object instance deploy engine
(`custom_object_instances_deploy.ts`): identity hashing, matching of local
instances against fetched remote records, bulk insert/update/delete execution,
and per-record result aggregation, together with proofs of the specified
properties.

JavaScript values are embedded as the inductive `Value`/`Fields` pair
(insertion-ordered string-keyed objects); JS in-place mutation of instances is
embedded as explicit state passing (functions return the final states of the
instances they mutate); `async` remote calls that can fail at the transport
level are embedded in `Except String`; the list of issued bulk calls is
returned alongside each result so that call-counting properties are statable.
-/

namespace Salto

mutual

/-- A JS/JSON value as used in instance values and remote records: `null`,
booleans, numbers (the modelled fragment uses integer-valued numbers),
strings, and nested objects (compound field values). `undefined` is not a
`Value`: absence of a key models an undefined field. -/
inductive Value where
  | vNull : Value
  | vBool : Bool → Value
  | vNum : Int → Value
  | vStr : String → Value
  | vObj : Fields → Value
  deriving DecidableEq

/-- An insertion-ordered JS object: a list of key-value entries. -/
inductive Fields where
  | fnil : Fields
  | fcons : String → Value → Fields → Fields
  deriving DecidableEq

end

/-- `Values` in the source: an insertion-ordered JS object mapping field
names to values. -/
abbrev Values := Fields

/-- JS property read `vals[k]`: first entry with key `k`, `none` models
`undefined`. -/
def getVal : Values → String → Option Value
  | .fnil, _ => none
  | .fcons k v rest, key => if k = key then some v else getVal rest key

/-- JS property assignment `vals[k] = v`: updates the value in place if the
key exists (keeping its position), otherwise appends the key at the end. -/
def setField : Values → String → Value → Values
  | .fnil, k, v => .fcons k v .fnil
  | .fcons k' v' rest, k, v =>
    if k' = k then .fcons k v rest else .fcons k' v' (setField rest k v)

/-- JS property deletion; also used to model assigning `undefined` to a key,
which is observationally equal to absence for every operation this engine
performs (lookup and JSON serialization). -/
def removeField : Values → String → Values
  | .fnil, _ => .fnil
  | .fcons k' v' rest, k =>
    if k' = k then removeField rest k else .fcons k' v' (removeField rest k)

/-- JS property assignment where the assigned value may be `undefined`
(`none`): assigning `undefined` is modelled as removal (see `removeField`). -/
def setJsField (vals : Values) (k : String) : Option Value → Values
  | some v => setField vals k v
  | none => removeField vals k

mutual

/-- Deep structural equality on values (models `isEqual` of adapter-api). -/
def valueBeq : Value → Value → Bool
  | .vNull, .vNull => true
  | .vBool a, .vBool b => a == b
  | .vNum a, .vNum b => a == b
  | .vStr a, .vStr b => a == b
  | .vObj a, .vObj b => fieldsBeq a b
  | _, _ => false

/-- Deep structural equality on field lists (key order significant, as for
the ordered containers the engine hashes and compares). -/
def fieldsBeq : Fields → Fields → Bool
  | .fnil, .fnil => true
  | .fcons k v rest, .fcons k' v' rest' => k == k' && valueBeq v v' && fieldsBeq rest rest'
  | _, _ => false

end

/-! ## JSON serialization (`safeJsonStringify` on the modelled fragment)

`safeJsonStringify` is `JSON.stringify` plus circular-reference handling;
the values this engine serializes are finite trees, so the embedding is plain
`JSON.stringify`: strings quoted with escapes, numbers in decimal, `null`,
booleans, objects as brace-delimited comma-separated `"key":value` members in
insertion order, and object entries holding `undefined` omitted. -/

/-- Hexadecimal digit characters. -/
def hexDigitChar (n : Nat) : Char :=
  ("0123456789abcdef".toList).getD n '0'

/-- JSON escaping of a single character, per `JSON.stringify`. -/
def escapeJsonChar (c : Char) : String :=
  if c = '"' then "\\\""
  else if c = '\\' then "\\\\"
  else if c = '\n' then "\\n"
  else if c = '\t' then "\\t"
  else if c = '\r' then "\\r"
  else if c.toNat = 8 then "\\b"
  else if c.toNat = 12 then "\\f"
  else if c.toNat < 32 then
    "\\u00" ++ String.singleton (hexDigitChar (c.toNat / 16))
      ++ String.singleton (hexDigitChar (c.toNat % 16))
  else String.singleton c

/-- A JSON string literal: quoted and escaped. -/
def jsonQuote (s : String) : String :=
  "\"" ++ String.join (s.toList.map escapeJsonChar) ++ "\""

/-- Decimal rendering of a number, as `JSON.stringify` renders the
integer-valued numbers of the modelled fragment. -/
def numToString (n : Int) : String :=
  if n < 0 then "-" ++ Nat.repr n.natAbs else Nat.repr n.natAbs

mutual

/-- `JSON.stringify` of a value. -/
def stringifyValue : Value → String
  | .vNull => "null"
  | .vBool true => "true"
  | .vBool false => "false"
  | .vNum n => numToString n
  | .vStr s => jsonQuote s
  | .vObj fs => "\x7b" ++ stringifyMembers fs ++ "\x7d"

/-- The comma-separated members of a JSON object. -/
def stringifyMembers : Fields → String
  | .fnil => ""
  | .fcons k v .fnil => jsonQuote k ++ ":" ++ stringifyValue v
  | .fcons k v rest => jsonQuote k ++ ":" ++ stringifyValue v ++ "," ++ stringifyMembers rest

end

/-- JS `obj[k] = v` on an entry list whose values may be `undefined`
(`Object.fromEntries` building block). -/
def setEntryOpt : List (String × Option Value) → String → Option Value → List (String × Option Value)
  | [], k, v => [(k, v)]
  | (k', v') :: rest, k, v =>
    if k' = k then (k, v) :: rest else (k', v') :: setEntryOpt rest k v

/-- `Object.fromEntries`: builds an object by assigning each pair in order
(the first occurrence of a key fixes its position, the last fixes its
value). -/
def fromEntriesOpt (l : List (String × Option Value)) : List (String × Option Value) :=
  l.foldl (fun acc kv => setEntryOpt acc kv.1 kv.2) []

/-- `JSON.stringify` of an object given as an entry list whose values may be
`undefined` (`none`): entries holding `undefined` are omitted, exactly as
`JSON.stringify` omits them. -/
def stringifyEntries (entries : List (String × Option Value)) : String :=
  "\x7b" ++ String.intercalate ","
    (entries.filterMap (fun kv => kv.2.map (fun v => jsonQuote kv.1 ++ ":" ++ stringifyValue v)))
    ++ "\x7d"

/-! ## MD5 (`toMD5` of lowerdash)

Modelled from the spec: `toMD5` lives in the repository's lowerdash package
(not under the sampled sources); the spec requires a cryptographic digest of
the canonical serialization, and the source names MD5. The embedding is the
real MD5 algorithm (RFC 1321) over the UTF-8 bytes of the input string,
producing the lowercase hex digest, written with `Nat` arithmetic mod 2^32. -/

/-- UTF-8 encoding of one character as bytes. -/
def charUtf8 (c : Char) : List Nat :=
  let n := c.toNat
  if n < 128 then [n]
  else if n < 2048 then [192 + n / 64, 128 + n % 64]
  else if n < 65536 then [224 + n / 4096, 128 + (n / 64) % 64, 128 + n % 64]
  else [240 + n / 262144, 128 + (n / 4096) % 64, 128 + (n / 64) % 64, 128 + n % 64]

/-- UTF-8 bytes of a string. -/
def strUtf8 (s : String) : List Nat :=
  (s.toList.map charUtf8).flatten

/-- `k` little-endian bytes of `n`. -/
def leBytes (k n : Nat) : List Nat :=
  (List.range k).map (fun i => (n / 256 ^ i) % 256)

/-- MD5 padding: append `0x80`, zero bytes to reach 56 mod 64, then the
64-bit little-endian bit length of the original message. -/
def md5Pad (msg : List Nat) : List Nat :=
  let len := msg.length
  let zeros := (64 + 56 - (len + 1) % 64) % 64
  msg ++ [128] ++ List.replicate zeros 0 ++ leBytes 8 ((len * 8) % 2 ^ 64)

/-- Split a byte list into 64-byte blocks (fuel-based so that it is
structurally recursive and kernel-reducible). -/
def chunks64Aux : Nat → List Nat → List (List Nat)
  | _, [] => []
  | 0, _ => []
  | fuel + 1, l => l.take 64 :: chunks64Aux fuel (l.drop 64)

/-- The 64-byte blocks of a padded message. -/
def chunks64 (l : List Nat) : List (List Nat) :=
  chunks64Aux l.length l

/-- The sixteen 32-bit little-endian words of one 64-byte block. -/
def blockWords (block : List Nat) : List Nat :=
  (List.range 16).map (fun i =>
    block.getD (4 * i) 0 + 256 * block.getD (4 * i + 1) 0
      + 65536 * block.getD (4 * i + 2) 0 + 16777216 * block.getD (4 * i + 3) 0)

/-- The MD5 sine-derived round constants. -/
def md5K : List Nat :=
  [0xd76aa478, 0xe8c7b756, 0x242070db, 0xc1bdceee,
   0xf57c0faf, 0x4787c62a, 0xa8304613, 0xfd469501,
   0x698098d8, 0x8b44f7af, 0xffff5bb1, 0x895cd7be,
   0x6b901122, 0xfd987193, 0xa679438e, 0x49b40821,
   0xf61e2562, 0xc040b340, 0x265e5a51, 0xe9b6c7aa,
   0xd62f105d, 0x02441453, 0xd8a1e681, 0xe7d3fbc8,
   0x21e1cde6, 0xc33707d6, 0xf4d50d87, 0x455a14ed,
   0xa9e3e905, 0xfcefa3f8, 0x676f02d9, 0x8d2a4c8a,
   0xfffa3942, 0x8771f681, 0x6d9d6122, 0xfde5380c,
   0xa4beea44, 0x4bdecfa9, 0xf6bb4b60, 0xbebfbc70,
   0x289b7ec6, 0xeaa127fa, 0xd4ef3085, 0x04881d05,
   0xd9d4d039, 0xe6db99e5, 0x1fa27cf8, 0xc4ac5665,
   0xf4292244, 0x432aff97, 0xab9423a7, 0xfc93a039,
   0x655b59c3, 0x8f0ccc92, 0xffeff47d, 0x85845dd1,
   0x6fa87e4f, 0xfe2ce6e0, 0xa3014314, 0x4e0811a1,
   0xf7537e82, 0xbd3af235, 0x2ad7d2bb, 0xeb86d391]

/-- The MD5 per-round left-rotation amounts. -/
def md5S : List Nat :=
  [7, 12, 17, 22, 7, 12, 17, 22, 7, 12, 17, 22, 7, 12, 17, 22,
   5, 9, 14, 20, 5, 9, 14, 20, 5, 9, 14, 20, 5, 9, 14, 20,
   4, 11, 16, 23, 4, 11, 16, 23, 4, 11, 16, 23, 4, 11, 16, 23,
   6, 10, 15, 21, 6, 10, 15, 21, 6, 10, 15, 21, 6, 10, 15, 21]

/-- 32-bit complement of a word below 2^32. -/
def not32 (x : Nat) : Nat := 4294967295 - x

/-- 32-bit left rotation of a word below 2^32. -/
def rotl32 (x n : Nat) : Nat :=
  ((x * 2 ^ n) % 4294967296) ||| (x / 2 ^ (32 - n))

/-- The nonlinear function and message index of MD5 round `i` given state
words `b c d`. -/
def md5FG (i b c d : Nat) : Nat × Nat :=
  if i < 16 then ((b &&& c) ||| (not32 b &&& d), i)
  else if i < 32 then ((d &&& b) ||| (not32 d &&& c), (5 * i + 1) % 16)
  else if i < 48 then (b ^^^ c ^^^ d, (3 * i + 5) % 16)
  else (c ^^^ (b ||| not32 d), (7 * i) % 16)

/-- One MD5 round step. -/
def md5Step (m : List Nat) (st : Nat × Nat × Nat × Nat) (i : Nat) : Nat × Nat × Nat × Nat :=
  let (a, b, c, d) := st
  let (f, g) := md5FG i b c d
  let f' := (a + f + md5K.getD i 0 + m.getD g 0) % 4294967296
  (d, (b + rotl32 f' (md5S.getD i 0)) % 4294967296, b, c)

/-- MD5 compression of one 64-byte block into the running state. -/
def md5Block (st : Nat × Nat × Nat × Nat) (block : List Nat) : Nat × Nat × Nat × Nat :=
  let m := blockWords block
  let (a, b, c, d) := (List.range 64).foldl (md5Step m) st
  let (a0, b0, c0, d0) := st
  ((a0 + a) % 4294967296, (b0 + b) % 4294967296, (c0 + c) % 4294967296, (d0 + d) % 4294967296)

/-- Lowercase hex rendering of one byte. -/
def byteHex (b : Nat) : String :=
  String.singleton (hexDigitChar (b / 16)) ++ String.singleton (hexDigitChar (b % 16))

/-- MD5 digest of a byte list, as a lowercase hex string. -/
def md5Hex (msg : List Nat) : String :=
  let (a, b, c, d) := (chunks64 (md5Pad msg)).foldl md5Block
    (0x67452301, 0xefcdab89, 0x98badcfe, 0x10325476)
  String.join (((leBytes 4 a ++ leBytes 4 b ++ leBytes 4 c ++ leBytes 4 d).map byteHex))

/-- `toMD5` of lowerdash: MD5 hex digest of the UTF-8 encoding of a
string. -/
def toMD5 (s : String) : String :=
  md5Hex (strUtf8 s)

/-- RFC 1321 test vector: the empty message. -/
theorem toMD5_empty : toMD5 "" = "d41d8cd98f00b204e9800998ecf8427e" := by decide

/-- RFC 1321 test vector: `"abc"`. -/
theorem toMD5_abc : toMD5 "abc" = "900150983cd24fb0d6963f7d28e17f72" := by decide

/-! ## Engine data model (`custom_object_instances_deploy.ts`) -/

/-- An `InstanceElement` restricted to what the deploy engine reads:
`name` is the elemID name, `typeName` the API name of its object type
(`apiName(instance.getType())`), `apiNameV` the instance's own unique
identifier (`apiName(instance)`, resolved by the external transformer),
`listCustomSettings` whether its type is a list custom settings object
(`isListCustomSettingsObject`, resolved by the external filter), and `value`
the instance's field values. -/
structure Instance where
  name : String
  typeName : String
  apiNameV : String
  listCustomSettings : Bool
  value : Values
  deriving DecidableEq

/-- Placeholder used to totalize head accesses that the callers guarantee
are on non-empty lists (`instances[0]` in the source). -/
def dummyInstance : Instance :=
  { name := "", typeName := "", apiNameV := "", listCustomSettings := false, value := .fnil }

/-- `isEqual` of adapter-api on instances: deep structural equality. -/
def Instance.isEqual (a b : Instance) : Bool :=
  a.name == b.name && a.typeName == b.typeName && a.apiNameV == b.apiNameV
    && a.listCustomSettings == b.listCustomSettings && fieldsBeq a.value b.value

/-- A fetched remote row (`SalesforceRecord` of client/types): its `Id` plus
the queried column values. -/
structure SalesforceRecord where
  Id : String
  fields : Values
  deriving DecidableEq

/-- jsforce `BatchResultInfo`: per-record outcome of a bulk call. -/
structure BatchResultInfo where
  success : Bool
  id : Option String
  errors : Option (List String)
  deriving DecidableEq

/-- One issued remote bulk call (`client.bulkLoadOperation` invocation):
type name, operation kind, and the submitted records. Returned alongside
results to make call-counting observable in the pure embedding. -/
structure BulkCall where
  typeName : String
  op : String
  records : List Values
  deriving DecidableEq

/-- The remote-store collaborator: `bulkLoadOperation` answers each bulk
call (`Except.error` models a transport-level rejection of the whole call);
`fetchedRecords` is the flattened result of the lookup queries issued by
`getRecordsBySaltoIds` (the query construction and pagination live outside
the sampled sources, so the collaborator directly yields the fetched
records, which the theorems quantify over). -/
structure SalesforceClient where
  bulkLoadOperation : String → String → List Values → Except String (List BatchResultInfo)
  fetchedRecords : Except String (List SalesforceRecord)

/-- `ActionResult` of the source. -/
structure ActionResult where
  successInstances : List Instance
  errorMessages : List String
  deriving DecidableEq

/-- `InstanceAndResult` of the source (`instance` is a Lean keyword, so the
field is named `inst`). -/
structure InstanceAndResult where
  inst : Instance
  result : BatchResultInfo
  deriving DecidableEq

/-- An applied change of a `DeployResult`: action tag plus before/after
data. -/
structure AppliedChange where
  action : String
  before : Option Instance
  after : Option Instance
  deriving DecidableEq

/-- `DeployResult`: applied changes plus error messages (the source wraps
each message in `new Error`; the embedding keeps the message strings). -/
structure DeployResult where
  appliedChanges : List AppliedChange
  errors : List String
  deriving DecidableEq

/-- A change of a single instance (`Change<InstanceElement>`). -/
inductive Change where
  | addition (after : Instance)
  | removal (before : Instance)
  | modification (before after : Instance)
  deriving DecidableEq

/-- `getChangeElement`: the after element, or the before element of a
removal. -/
def getChangeElement : Change → Instance
  | .addition after => after
  | .removal before => before
  | .modification _ after => after

/-- `isAdditionChange`. -/
def Change.isAddition : Change → Bool
  | .addition _ => true
  | _ => false

/-- `isRemovalChange`. -/
def Change.isRemoval : Change → Bool
  | .removal _ => true
  | _ => false

/-- `isModificationChange`. -/
def Change.isModification : Change → Bool
  | .modification _ _ => true
  | _ => false

/-- The `data` of a modification change. -/
structure ModificationData where
  before : Instance
  after : Instance
  deriving DecidableEq

/-- Placeholder modification data for head accesses on lists the callers
guarantee are non-empty. -/
def dummyModification : ModificationData :=
  { before := dummyInstance, after := dummyInstance }

/-- `change.data` (only applied where the source has narrowed the list to
modification changes via `isModificationChangeList`). -/
def changeData : Change → ModificationData
  | .modification before after => { before := before, after := after }
  | .addition after => { before := after, after := after }
  | .removal before => { before := before, after := before }

/-- Modelled from the spec: `DataManagement` configuration (fetch_profile,
outside the sampled sources) — per record type, the configured salto id
field names and the names that do not resolve on the schema
("identity fields that don't resolve on the schema" are the invalid
ones). -/
structure DataManagement where
  idFieldsFor : String → List String
  invalidFieldsFor : String → List String

/-- Modelled from the spec: `getIdFields` (custom_objects_instances filter,
outside the sampled sources) — resolves the configured identity field names
of a record type, returning the resolved id fields and the invalid ones. -/
def getIdFields (typeName : String) (dataManagement : DataManagement) :
    List String × List String :=
  (dataManagement.idFieldsFor typeName, dataManagement.invalidFieldsFor typeName)

/-- `getDataManagementFromCustomSettings`: `buildDataManagement` with the
object included and `defaultIdFields: ['Name']` (`buildDataManagement`
itself lives outside the sampled sources and is modelled from the spec). -/
def getDataManagementFromCustomSettings : DataManagement :=
  { idFieldsFor := fun _ => ["Name"], invalidFieldsFor := fun _ => [] }

/-- Modelled from the spec: `instancesToCreateRecords` (transformer, outside
the sampled sources) — converts instances to the bulk-record shape with
"identifier omission for insert". -/
def instancesToCreateRecords (instances : List Instance) : List Values :=
  instances.map (fun i => removeField i.value "Id")

/-- Modelled from the spec: `instancesToUpdateRecords` (transformer, outside
the sampled sources) — converts instances to the bulk-record shape with
"identifier inclusion for update" (the identifier sits in the value under
`Id`). -/
def instancesToUpdateRecords (instances : List Instance) : List Values :=
  instances.map (fun i => i.value)

/-- Modelled from the spec: `instancesToDeleteRecords` (transformer, outside
the sampled sources) — a delete record carries only the identifier. -/
def instancesToDeleteRecords (instances : List Instance) : List Values :=
  instances.map (fun i => setJsField .fnil "Id" (getVal i.value "Id"))

/-! ## Result aggregation helpers -/

/-- `result.errors?.join('\n\t')` (JS renders a missing list as
`"undefined"`; the call sites below only reach it on present lists). -/
def joinErrors : Option (List String) → String
  | some l => String.intercalate "\n\t" l
  | none => "undefined"

/-- `getErrorMessagesFromInstAndResults`: one message per instance-result
pair, `name:\n    \t` followed by the errors joined with `\n\t`. -/
def getErrorMessagesFromInstAndResults (instancesAndResults : List InstanceAndResult) : List String :=
  instancesAndResults.map (fun ir => ir.inst.name ++ ":\n    \t" ++ joinErrors ir.result.errors)

/-- `getAndLogErrors`: the messages of the pairs that failed with error
strings (the logging side effect has no bearing on the returned value). -/
def getAndLogErrors (instancesAndResults : List InstanceAndResult) : List String :=
  let errored := instancesAndResults.filter
    (fun ir => !ir.result.success && ir.result.errors.isSome)
  getErrorMessagesFromInstAndResults errored

/-- `groupInstancesAndResultsByIndex`: positional pairing of submitted
instances with the bulk call's per-record results (the remote contract
aligns them positionally). -/
def groupInstancesAndResultsByIndex (results : List BatchResultInfo)
    (instances : List Instance) : List InstanceAndResult :=
  instances.zipWith (fun inst result => { inst := inst, result := result }) results

/-- `getActionResult`: successful instances plus the error messages of the
failed ones. -/
def getActionResult (instancesAndResults : List InstanceAndResult) : ActionResult :=
  let successInstances := (instancesAndResults.filter (fun ir => ir.result.success)).map (fun ir => ir.inst)
  let errorMessages := getAndLogErrors instancesAndResults
  { successInstances := successInstances, errorMessages := errorMessages }

/-! ## Bulk executors

Each executor returns (alongside the issued call list) the `ActionResult`;
`insertInstances` additionally returns the final states of its input
instances in input order, embedding the in-place `instance.value[Id] =
result.id` mutation of succeeding instances. -/

/-- The in-place mutation `instance.value[CUSTOM_OBJECT_ID_FIELD] =
result.id` performed on each succeeding inserted instance. -/
def assignId (inst : Instance) (id : Option String) : Instance :=
  { inst with value := setJsField inst.value "Id" (id.map .vStr) }

/-- The instance-result pairs of an insert call after the in-place `Add IDs
to success instances` mutation: each succeeding instance carries its newly
assigned identifier. -/
def insertMutated (results : List BatchResultInfo) (instances : List Instance) :
    List InstanceAndResult :=
  (groupInstancesAndResultsByIndex results instances).map (fun ir =>
    if ir.result.success then { ir with inst := assignId ir.inst ir.result.id } else ir)

/-- `insertInstances`: empty input short-circuits to an empty result with no
remote call; otherwise one bulk `insert` call is issued, succeeding
instances are mutated with their newly assigned identifier, and failures
are collected as error messages. -/
def insertInstances (typeName : String) (instances : List Instance)
    (client : SalesforceClient) :
    Except String (ActionResult × List Instance) × List BulkCall :=
  if instances.isEmpty then
    (.ok ({ successInstances := [], errorMessages := [] }, instances), [])
  else
    let records := instancesToCreateRecords instances
    match client.bulkLoadOperation typeName "insert" records with
    | .error e => (.error e, [{ typeName := typeName, op := "insert", records := records }])
    | .ok results =>
      -- Add IDs to success instances (in-place mutation, embedded as a map)
      let mutated := insertMutated results instances
      let successInstAndRes := mutated.filter (fun ir => ir.result.success)
      let errorMessages := getAndLogErrors mutated
      (.ok ({ successInstances := successInstAndRes.map (fun ir => ir.inst),
              errorMessages := errorMessages },
            mutated.map (fun ir => ir.inst)),
       [{ typeName := typeName, op := "insert", records := records }])

/-- `updateInstances`: empty input short-circuits to an empty result with no
remote call; otherwise one bulk `update` call is issued (updates assign no
new identifiers, so no instance is mutated). -/
def updateInstances (typeName : String) (instances : List Instance)
    (client : SalesforceClient) : Except String ActionResult × List BulkCall :=
  if instances.isEmpty then
    (.ok { successInstances := [], errorMessages := [] }, [])
  else
    let records := instancesToUpdateRecords instances
    match client.bulkLoadOperation typeName "update" records with
    | .error e => (.error e, [{ typeName := typeName, op := "update", records := records }])
    | .ok results =>
      (.ok (getActionResult (groupInstancesAndResultsByIndex results instances)),
       [{ typeName := typeName, op := "update", records := records }])

/-- `deleteInstances`: always issues the bulk `delete` call — the source has
no empty-input guard here, unlike `insertInstances` and
`updateInstances`. -/
def deleteInstances (typeName : String) (instances : List Instance)
    (client : SalesforceClient) : Except String ActionResult × List BulkCall :=
  let records := instancesToDeleteRecords instances
  match client.bulkLoadOperation typeName "delete" records with
  | .error e => (.error e, [{ typeName := typeName, op := "delete", records := records }])
  | .ok results =>
    (.ok (getActionResult (groupInstancesAndResultsByIndex results instances)),
     [{ typeName := typeName, op := "delete", records := records }])

/-! ## Identity hashing and matching -/

mutual

/-- The recursive step of `cloneWithoutNulls` on a single value: objects are
cloned recursively, everything else is kept as is. -/
def cloneValueWithoutNulls : Value → Value
  | .vObj fs => .vObj (cloneWithoutNulls fs)
  | v => v

/-- `cloneWithoutNulls`: drops entries whose value is `null` (recursively
inside nested objects) and keeps everything else. -/
def cloneWithoutNulls : Values → Values
  | .fnil => .fnil
  | .fcons _ .vNull rest => cloneWithoutNulls rest
  | .fcons k v rest => .fcons k (cloneValueWithoutNulls v) (cloneWithoutNulls rest)

end

/-- `computeSaltoIdHash`: builds the ordered mapping from the configured id
field names (in their declared order — "order of keys is important") to the
instance's values, serializes it with `safeJsonStringify` (absent fields
yield `undefined` entries, which the serialization omits), and digests the
serialization with MD5. -/
def computeSaltoIdHash (idFieldsNames : List String) (vals : Values) : String :=
  let idFieldsValues := fromEntriesOpt
    (idFieldsNames.map (fun fieldName => (fieldName, getVal vals fieldName)))
  toMD5 (stringifyEntries idFieldsValues)

/-- `transformRecordToValues` (custom_objects_instances filter, outside the
sampled sources) — modelled from the spec: a fetched record is "an
identifier plus a flat mapping of queried column names to raw values", so
its instance-shaped values are its columns together with its `Id`. -/
def transformRecordToValues (record : SalesforceRecord) : Values :=
  .fcons "Id" (.vStr record.Id) record.fields

/-- `computeRecordSaltoIdHash`: converts the record to instance-shaped
values, removes `null` values "to compare it to instance values", and
hashes like a local instance. -/
def computeRecordSaltoIdHash (idFieldsNames : List String)
    (record : SalesforceRecord) : String :=
  let recordValues := transformRecordToValues record
  let recordValuesWithoutNulls := cloneWithoutNulls recordValues
  computeSaltoIdHash idFieldsNames recordValuesWithoutNulls

/-- `_.keyBy(records, f)`: the object mapping each `f r` to `r`, the last
record with a given key silently overwriting earlier ones. -/
def keyBy (f : SalesforceRecord → String) (records : List SalesforceRecord) :
    String → Option SalesforceRecord :=
  fun h => (records.filter (fun r => f r = h)).getLast?

/-- `getRecordsBySaltoIds` — the in-source part builds the lookup queries
(via the external `buildSelectQueries`) and flat-maps `client.queryAll` over
them; the remote round-trip is embedded as the collaborator's
`fetchedRecords`, which the theorems quantify over. -/
def getRecordsBySaltoIds (client : SalesforceClient) :
    Except String (List SalesforceRecord) :=
  client.fetchedRecords

/-! ## Deploy per action kind -/

/-- The `existingInstances.forEach` of `deployAddInstances`: writes each
matched instance's looked-up record `Id` into its value (in place, before
the bulk update). A lookup miss would make the source read `Id` of
`undefined` and throw, which the `Except.error` branch embeds; the
partition makes that branch unreachable. -/
def assignExistingIds (idFieldsNames : List String)
    (lookup : String → Option SalesforceRecord) :
    List Instance → Except String (List Instance)
  | [] => .ok []
  | inst :: rest =>
    match lookup (computeSaltoIdHash idFieldsNames inst.value) with
    | none => .error "TypeError: Cannot read properties of undefined (reading 'Id')"
    | some record =>
      match assignExistingIds idFieldsNames lookup rest with
      | .error e => .error e
      | .ok rest' =>
        .ok ({ inst with value := setField inst.value "Id" (.vStr record.Id) } :: rest')

/-- `deployAddInstances`: fetches the remote records matching the batch,
indexes them by identity hash, partitions the instances into existing
(hash hit) and new (miss), bulk-inserts the new ones, writes the matched
record `Id` into each existing one, bulk-updates those, and reports every
success as an applied `"add"` change. Besides the `DeployResult` it returns
the final states of the existing partition and of the new partition
(embedding the in-place mutations visible to the caller). -/
def deployAddInstances (instances : List Instance) (idFieldsNames : List String)
    (client : SalesforceClient) :
    Except String (DeployResult × List Instance × List Instance) × List BulkCall :=
  let typeName := (instances.headD dummyInstance).typeName
  match getRecordsBySaltoIds client with
  | .error e => (.error e, [])
  | .ok records =>
    let existingRecordsLookup := keyBy (computeRecordSaltoIdHash idFieldsNames) records
    let (existingInstances, newInstances) := instances.partition (fun inst =>
      (existingRecordsLookup (computeSaltoIdHash idFieldsNames inst.value)).isSome)
    match insertInstances typeName newInstances client with
    | (.error e, insertCalls) => (.error e, insertCalls)
    | (.ok (insertResult, newFinal), insertCalls) =>
      match assignExistingIds idFieldsNames existingRecordsLookup existingInstances with
      | .error e => (.error e, insertCalls)
      | .ok updatedExisting =>
        match updateInstances typeName updatedExisting client with
        | (.error e, updateCalls) => (.error e, insertCalls ++ updateCalls)
        | (.ok updateResult, updateCalls) =>
          let allSuccessInstances :=
            insertResult.successInstances ++ updateResult.successInstances
          (.ok ({ appliedChanges := allSuccessInstances.map (fun inst =>
                    { action := "add", before := none, after := some inst }),
                  errors := insertResult.errorMessages ++ updateResult.errorMessages },
                updatedExisting, newFinal),
           insertCalls ++ updateCalls)

/-- `deployRemoveInstances`: bulk-deletes and reports each success as an
applied `"remove"` change. -/
def deployRemoveInstances (instances : List Instance)
    (client : SalesforceClient) : Except String DeployResult × List BulkCall :=
  match deleteInstances (instances.headD dummyInstance).typeName instances client with
  | (.error e, calls) => (.error e, calls)
  | (.ok result, calls) =>
    (.ok { appliedChanges := result.successInstances.map (fun inst =>
             { action := "remove", before := some inst, after := none }),
           errors := result.errorMessages }, calls)

/-- `deployModifyChanges`: partitions the changes into those whose before-
and after-api-names agree (submitted in the bulk update) and those whose
differ (excluded, each yielding one standalone error); successes are
reported as applied `"modify"` changes. -/
def deployModifyChanges (changesData : List ModificationData)
    (client : SalesforceClient) : Except String DeployResult × List BulkCall :=
  let instancesType := (changesData.headD dummyModification).after.typeName
  let (validData, diffApiNameData) := changesData.partition (fun cd =>
    cd.before.apiNameV = cd.after.apiNameV)
  let afters := validData.map (fun cd => cd.after)
  match updateInstances instancesType afters client with
  | (.error e, calls) => (.error e, calls)
  | (.ok result, calls) =>
    let successData := validData.filter (fun cd =>
      (result.successInstances.find? (fun inst => inst.isEqual cd.after)).isSome)
    let diffApiNameErrors := diffApiNameData.map (fun cd =>
      "Failed to update as api name prev=" ++ cd.before.apiNameV
        ++ " and new=" ++ cd.after.apiNameV ++ " are different")
    let errors := result.errorMessages ++ diffApiNameErrors
    (.ok { appliedChanges := successData.map (fun cd =>
             { action := "modify", before := some cd.before, after := some cd.after }),
           errors := errors }, calls)

/-! ## Group deploy -/

/-- First-occurrence deduplication, as `[...new Set(xs)]` produces. -/
def uniqueListAux : List String → List String → List String
  | _, [] => []
  | seen, x :: xs =>
    if seen.contains x then uniqueListAux seen xs
    else x :: uniqueListAux (x :: seen) xs

/-- `[...new Set(xs)]`. -/
def uniqueList (xs : List String) : List String :=
  uniqueListAux [] xs

/-- The `actualDataManagement` selection of the group deploy: list custom
settings objects build their own configuration; everything else uses the
passed one (possibly absent). -/
def actualDataManagement (instances : List Instance)
    (dataManagement : Option DataManagement) : Option DataManagement :=
  if (instances.headD dummyInstance).listCustomSettings then
    some getDataManagementFromCustomSettings
  else dataManagement

/-- The body of `deployCustomObjectInstancesGroup`'s `try` block: validates
the preconditions (single type, configuration present, homogeneous action
kind, valid salto id fields) and dispatches to the per-action deploy;
every violated precondition and every transport failure surfaces as an
`Except.error` (a thrown `Error` in the source). -/
def deployCustomObjectInstancesGroupInner (changes : List Change)
    (client : SalesforceClient) (dataManagement : Option DataManagement) :
    Except String DeployResult × List BulkCall :=
  let instances := changes.map getChangeElement
  let instanceTypes := uniqueList (instances.map (fun inst => inst.typeName))
  if instanceTypes.length > 1 then
    (.error ("Custom Object Instances change group should have a single type but got: "
      ++ String.intercalate "," instanceTypes), [])
  else if instances.isEmpty then
    -- an empty group makes the source read `getType` of `undefined` and throw
    (.error "TypeError: Cannot read properties of undefined (reading 'getType')", [])
  else
    match actualDataManagement instances dataManagement with
    | none =>
      (.error "dataManagement must be defined in the salesforce.nacl config to deploy Custom Object instances", [])
    | some adm =>
      if changes.all Change.isAddition then
        let (idFields, invalidFields) :=
          getIdFields (instances.headD dummyInstance).typeName adm
        if !invalidFields.isEmpty then
          (.error ("Failed to add instances of type " ++ (instanceTypes.headD "")
            ++ " due to invalid SaltoIdFields - " ++ String.intercalate "," invalidFields), [])
        else
          match deployAddInstances instances idFields client with
          | (.error e, calls) => (.error e, calls)
          | (.ok (deployResult, _, _), calls) => (.ok deployResult, calls)
      else if changes.all Change.isRemoval then
        deployRemoveInstances instances client
      else if changes.all Change.isModification then
        deployModifyChanges (changes.map changeData) client
      else
        (.error "Custom Object Instances change group must have one action", [])

/-- `deployCustomObjectInstancesGroup`: the `try`/`catch` wrapper — any
thrown error is caught and returned as a `DeployResult` with no applied
changes and that single error. -/
def deployCustomObjectInstancesGroup (changes : List Change)
    (client : SalesforceClient) (dataManagement : Option DataManagement) :
    DeployResult × List BulkCall :=
  match deployCustomObjectInstancesGroupInner changes client dataManagement with
  | (.ok deployResult, calls) => (deployResult, calls)
  | (.error e, calls) => ({ appliedChanges := [], errors := [e] }, calls)

/-! ## General lemmas about the embedding -/

/-- The identity lookup an Add batch matches against. -/
def recordsLookup (idFieldsNames : List String) (records : List SalesforceRecord) :
    String → Option SalesforceRecord :=
  keyBy (computeRecordSaltoIdHash idFieldsNames) records

/-- The record (if any) a local instance is matched to. -/
def matchedRecord (idFieldsNames : List String) (records : List SalesforceRecord)
    (inst : Instance) : Option SalesforceRecord :=
  recordsLookup idFieldsNames records (computeSaltoIdHash idFieldsNames inst.value)

/-- The empty remote record (used only as an `Option.getD` default on
branches the matching makes unreachable). -/
def emptyRecord : SalesforceRecord :=
  { Id := "", fields := .fnil }

/-- The state of a matched instance after the engine writes the looked-up
record's `Id` into its value. -/
def withLookupId (idFieldsNames : List String)
    (lookup : String → Option SalesforceRecord) (inst : Instance) : Instance :=
  { inst with
    value := setField inst.value "Id"
        (.vStr ((lookup (computeSaltoIdHash idFieldsNames inst.value)).getD emptyRecord).Id) }

theorem getVal_setField_self : ∀ (vals : Values) (k : String) (v : Value),
    getVal (setField vals k v) k = some v
  | .fnil, k, v => by simp [setField, getVal]
  | .fcons k' v' rest, k, v => by
    by_cases h : k' = k
    · simp [setField, h, getVal]
    · simp [setField, h, getVal, getVal_setField_self rest k v]

theorem assignExistingIds_ok (idFieldsNames : List String)
    (lookup : String → Option SalesforceRecord) (l : List Instance)
    (h : ∀ i ∈ l, (lookup (computeSaltoIdHash idFieldsNames i.value)).isSome = true) :
    assignExistingIds idFieldsNames lookup l = .ok (l.map (withLookupId idFieldsNames lookup)) := by
  induction l with
  | nil => simp [assignExistingIds]
  | cons a as ih =>
    have ha := h a (by simp)
    obtain ⟨r, hr⟩ := Option.isSome_iff_exists.mp ha
    have has : ∀ i ∈ as, (lookup (computeSaltoIdHash idFieldsNames i.value)).isSome = true :=
      fun i hi => h i (by simp [hi])
    simp [assignExistingIds, hr, ih has, withLookupId]

theorem getAndLogErrors_all_success (l : List InstanceAndResult)
    (h : ∀ ir ∈ l, ir.result.success = true) : getAndLogErrors l = [] := by
  have hf : l.filter (fun ir => !ir.result.success && ir.result.errors.isSome) = [] := by
    rw [List.filter_eq_nil_iff]
    intro ir hir
    simp [h ir hir]
  simp [getAndLogErrors, hf, getErrorMessagesFromInstAndResults]

theorem group_filter_success (l : List Instance) (rs : List BatchResultInfo)
    (hlen : rs.length = l.length) (h : ∀ r ∈ rs, r.success = true) :
    ((groupInstancesAndResultsByIndex rs l).filter (fun ir => ir.result.success)).map
      (fun ir => ir.inst) = l := by
  induction l generalizing rs with
  | nil => simp [groupInstancesAndResultsByIndex]
  | cons a as ih =>
    cases rs with
    | nil => simp at hlen
    | cons r rs' =>
      have hr : r.success = true := h r (by simp)
      simp only [groupInstancesAndResultsByIndex, List.zipWith] at *
      rw [List.filter_cons]
      simp only [hr, if_pos, List.map_cons]
      rw [ih rs' (by simpa using hlen) (fun x hx => h x (by simp [hx]))]

theorem group_all_success (l : List Instance) (rs : List BatchResultInfo)
    (h : ∀ r ∈ rs, r.success = true) :
    ∀ ir ∈ groupInstancesAndResultsByIndex rs l, ir.result.success = true := by
  induction l generalizing rs with
  | nil => simp [groupInstancesAndResultsByIndex]
  | cons a as ih =>
    cases rs with
    | nil => simp [groupInstancesAndResultsByIndex]
    | cons r rs' =>
      intro ir hir
      simp only [groupInstancesAndResultsByIndex, List.zipWith, List.mem_cons] at hir
      rcases hir with rfl | hir
      · exact h r (by simp)
      · exact ih rs' (fun x hx => h x (by simp [hx])) ir hir

theorem getActionResult_all_success (l : List Instance) (rs : List BatchResultInfo)
    (hlen : rs.length = l.length) (h : ∀ r ∈ rs, r.success = true) :
    getActionResult (groupInstancesAndResultsByIndex rs l) =
      { successInstances := l, errorMessages := [] } := by
  simp only [getActionResult]
  rw [group_filter_success l rs hlen h,
    getAndLogErrors_all_success _ (group_all_success l rs h)]

theorem updateInstances_nil (typeName : String) (client : SalesforceClient) :
    updateInstances typeName [] client =
      (.ok { successInstances := [], errorMessages := [] }, []) := rfl

theorem updateInstances_ok (typeName : String) (l : List Instance)
    (client : SalesforceClient) (rs : List BatchResultInfo) (hne : l ≠ [])
    (hbulk : client.bulkLoadOperation typeName "update" (instancesToUpdateRecords l) = .ok rs) :
    updateInstances typeName l client =
      (.ok (getActionResult (groupInstancesAndResultsByIndex rs l)),
       [{ typeName := typeName, op := "update", records := instancesToUpdateRecords l }]) := by
  simp [updateInstances, hne, hbulk]

theorem updateInstances_calls (typeName : String) (l : List Instance)
    (client : SalesforceClient) (hne : l ≠ []) :
    (updateInstances typeName l client).2 =
      [{ typeName := typeName, op := "update", records := instancesToUpdateRecords l }] := by
  cases hbulk : client.bulkLoadOperation typeName "update" (instancesToUpdateRecords l) with
  | error e => simp [updateInstances, hne, hbulk]
  | ok rs => simp [updateInstances, hne, hbulk]

theorem insertInstances_nil (typeName : String) (client : SalesforceClient) :
    insertInstances typeName [] client =
      (.ok ({ successInstances := [], errorMessages := [] }, []), []) := rfl

theorem insertInstances_ok (typeName : String) (l : List Instance)
    (client : SalesforceClient) (rs : List BatchResultInfo) (hne : l ≠ [])
    (hbulk : client.bulkLoadOperation typeName "insert" (instancesToCreateRecords l) = .ok rs) :
    insertInstances typeName l client =
      (.ok ({ successInstances :=
                ((insertMutated rs l).filter (fun ir => ir.result.success)).map (fun ir => ir.inst),
              errorMessages := getAndLogErrors (insertMutated rs l) },
            (insertMutated rs l).map (fun ir => ir.inst)),
       [{ typeName := typeName, op := "insert", records := instancesToCreateRecords l }]) := by
  simp [insertInstances, hne, hbulk]

theorem insertInstances_calls (typeName : String) (l : List Instance)
    (client : SalesforceClient) (hne : l ≠ []) :
    (insertInstances typeName l client).2 =
      [{ typeName := typeName, op := "insert", records := instancesToCreateRecords l }] := by
  cases hbulk : client.bulkLoadOperation typeName "insert" (instancesToCreateRecords l) with
  | error e => simp [insertInstances, hne, hbulk]
  | ok rs => simp [insertInstances, hne, hbulk]

theorem deleteInstances_calls (typeName : String) (l : List Instance)
    (client : SalesforceClient) :
    (deleteInstances typeName l client).2 =
      [{ typeName := typeName, op := "delete", records := instancesToDeleteRecords l }] := by
  cases hbulk : client.bulkLoadOperation typeName "delete" (instancesToDeleteRecords l) with
  | error e => simp [deleteInstances, hbulk]
  | ok rs => simp [deleteInstances, hbulk]

/-- The existing partition of an Add batch: the instances whose identity
hash hits the fetched-record lookup. -/
def existingOf (idFieldsNames : List String) (records : List SalesforceRecord)
    (instances : List Instance) : List Instance :=
  instances.filter (fun inst => (matchedRecord idFieldsNames records inst).isSome)

/-- The new partition of an Add batch: the instances whose identity hash
misses the fetched-record lookup. -/
def newOf (idFieldsNames : List String) (records : List SalesforceRecord)
    (instances : List Instance) : List Instance :=
  instances.filter (fun inst => !(matchedRecord idFieldsNames records inst).isSome)

/-- The existing partition after the engine writes each matched record's
`Id` into its instance. -/
def updatedExistingOf (idFieldsNames : List String) (records : List SalesforceRecord)
    (instances : List Instance) : List Instance :=
  (existingOf idFieldsNames records instances).map
    (withLookupId idFieldsNames (recordsLookup idFieldsNames records))

/-- The instances an insert bulk call succeeded for, in their mutated
(fresh-identifier-carrying) state. -/
def insertSuccessesOf (irs : List BatchResultInfo) (l : List Instance) : List Instance :=
  ((insertMutated irs l).filter (fun ir => ir.result.success)).map (fun ir => ir.inst)

/-- The instances an update bulk call succeeded for. -/
def updateSuccessesOf (urs : List BatchResultInfo) (l : List Instance) : List Instance :=
  ((groupInstancesAndResultsByIndex urs l).filter (fun ir => ir.result.success)).map
    (fun ir => ir.inst)

theorem deployAddInstances_run
    (instances : List Instance) (idFieldsNames : List String) (client : SalesforceClient)
    (records : List SalesforceRecord) (irs urs : List BatchResultInfo)
    (hq : client.fetchedRecords = .ok records)
    (hins : client.bulkLoadOperation (instances.headD dummyInstance).typeName "insert"
        (instancesToCreateRecords (newOf idFieldsNames records instances)) = .ok irs)
    (hupd : client.bulkLoadOperation (instances.headD dummyInstance).typeName "update"
        (instancesToUpdateRecords (updatedExistingOf idFieldsNames records instances)) = .ok urs) :
    deployAddInstances instances idFieldsNames client =
      (.ok ({ appliedChanges :=
                (insertSuccessesOf irs (newOf idFieldsNames records instances)
                    ++ updateSuccessesOf urs (updatedExistingOf idFieldsNames records instances)).map
                  (fun inst => { action := "add", before := none, after := some inst }),
              errors :=
                getAndLogErrors (insertMutated irs (newOf idFieldsNames records instances))
                  ++ getAndLogErrors (groupInstancesAndResultsByIndex urs
                        (updatedExistingOf idFieldsNames records instances)) },
            updatedExistingOf idFieldsNames records instances,
            (insertMutated irs (newOf idFieldsNames records instances)).map (fun ir => ir.inst)),
       (if newOf idFieldsNames records instances = [] then []
        else [{ typeName := (instances.headD dummyInstance).typeName, op := "insert",
                records := instancesToCreateRecords (newOf idFieldsNames records instances) }])
         ++ (if updatedExistingOf idFieldsNames records instances = [] then []
             else [{ typeName := (instances.headD dummyInstance).typeName, op := "update",
                     records := instancesToUpdateRecords
                       (updatedExistingOf idFieldsNames records instances) }])) := by
  have hall : ∀ i ∈ existingOf idFieldsNames records instances,
      (recordsLookup idFieldsNames records (computeSaltoIdHash idFieldsNames i.value)).isSome
        = true :=
    fun i hi => (List.mem_filter.mp hi).2
  have hassign := assignExistingIds_ok idFieldsNames
    (recordsLookup idFieldsNames records) (existingOf idFieldsNames records instances) hall
  have hfex : instances.filter (fun inst =>
      (keyBy (computeRecordSaltoIdHash idFieldsNames) records
        (computeSaltoIdHash idFieldsNames inst.value)).isSome)
      = existingOf idFieldsNames records instances := rfl
  have hfnew : instances.filter (not ∘ fun inst =>
      (keyBy (computeRecordSaltoIdHash idFieldsNames) records
        (computeSaltoIdHash idFieldsNames inst.value)).isSome)
      = newOf idFieldsNames records instances := rfl
  have hassign2 : assignExistingIds idFieldsNames
      (keyBy (computeRecordSaltoIdHash idFieldsNames) records)
      (existingOf idFieldsNames records instances)
      = Except.ok (updatedExistingOf idFieldsNames records instances) := hassign
  simp only [deployAddInstances, getRecordsBySaltoIds, hq,
    List.partition_eq_filter_filter]
  by_cases hni : newOf idFieldsNames records instances = [] <;>
    by_cases hue : updatedExistingOf idFieldsNames records instances = []
  · simp only [hfnew, hfex, hni, insertInstances_nil, hassign2, hue,
      updateInstances_nil]
    simp [hni, hue, insertSuccessesOf, updateSuccessesOf, insertMutated,
      groupInstancesAndResultsByIndex, getAndLogErrors, getErrorMessagesFromInstAndResults]
  · have hupd' := updateInstances_ok _ _ _ _ hue hupd
    simp only [hfnew, hfex, hni, insertInstances_nil, hassign2, hupd']
    simp [hni, hue, insertSuccessesOf, updateSuccessesOf, insertMutated,
      groupInstancesAndResultsByIndex, getActionResult, getAndLogErrors,
      getErrorMessagesFromInstAndResults]
  · have hins' := insertInstances_ok _ _ _ _ hni hins
    simp only [hfnew, hfex, hins', hassign2, hue, updateInstances_nil]
    simp [hni, hue, insertSuccessesOf, updateSuccessesOf, insertMutated,
      groupInstancesAndResultsByIndex, getAndLogErrors, getErrorMessagesFromInstAndResults]
  · have hins' := insertInstances_ok _ _ _ _ hni hins
    have hupd' := updateInstances_ok _ _ _ _ hue hupd
    simp only [hfnew, hfex, hins', hassign2, hupd']
    simp [hni, hue, insertSuccessesOf, updateSuccessesOf, getActionResult]

/-! ## Concrete fixtures for witnesses and counterexamples -/

/-- Fixture instance `i1` (identity field `Name = "x"`). -/
def inst1 : Instance :=
  { name := "i1", typeName := "T", apiNameV := "i1", listCustomSettings := false,
    value := .fcons "Name" (.vStr "x") .fnil }

/-- Fixture instance `i2` (identity field `Name = "y"`). -/
def inst2 : Instance :=
  { name := "i2", typeName := "T", apiNameV := "i2", listCustomSettings := false,
    value := .fcons "Name" (.vStr "y") .fnil }

/-- Fixture instance `i3` (identity field `Name = "z"`). -/
def inst3 : Instance :=
  { name := "i3", typeName := "T", apiNameV := "i3", listCustomSettings := false,
    value := .fcons "Name" (.vStr "z") .fnil }

/-- Fixture remote record with identity `Name = "x"`, matching `inst1`. -/
def rec1 : SalesforceRecord :=
  { Id := "ID1", fields := .fcons "Name" (.vStr "x") .fnil }

/-- Fixture collaborator: all bulk calls succeed without assigning
identifiers, and the lookup fetches no records. -/
def clientBlank : SalesforceClient :=
  { bulkLoadOperation := fun _ _ recs =>
      .ok (recs.map (fun _ => { success := true, id := none, errors := none })),
    fetchedRecords := .ok [] }

/-- Fixture collaborator: the lookup fetches `rec1`; inserts succeed with
fresh identifier `NEW`, updates and deletes succeed without identifiers. -/
def clientMatch : SalesforceClient :=
  { bulkLoadOperation := fun _ op recs =>
      .ok (recs.map (fun _ =>
        { success := true, id := if op = "insert" then some "NEW" else none, errors := none })),
    fetchedRecords := .ok [rec1] }

/-- Fixture collaborator: the lookup fetches `rec1`; inserts succeed, but
every update reports a per-record failure with one error string. -/
def clientUpdateFails : SalesforceClient :=
  { bulkLoadOperation := fun _ op recs =>
      if op = "update" then
        .ok (recs.map (fun _ => { success := false, id := none, errors := some ["locked"] }))
      else
        .ok (recs.map (fun _ => { success := true, id := some "NEW", errors := none })),
    fetchedRecords := .ok [rec1] }

/-- Fixture instance `d1` with the same identity values as `d2`. -/
def instDupA : Instance :=
  { name := "d1", typeName := "T", apiNameV := "d1", listCustomSettings := false,
    value := .fcons "Name" (.vStr "w") .fnil }

/-- Fixture instance `d2` with the same identity values as `d1`. -/
def instDupB : Instance :=
  { name := "d2", typeName := "T", apiNameV := "d2", listCustomSettings := false,
    value := .fcons "Name" (.vStr "w") .fnil }

/-- Matched instances belong to the existing partition. -/
theorem mem_existingOf {idFieldsNames : List String} {records : List SalesforceRecord}
    {instances : List Instance} {inst : Instance} (hmem : inst ∈ instances)
    (h : (matchedRecord idFieldsNames records inst).isSome = true) :
    inst ∈ existingOf idFieldsNames records instances :=
  List.mem_filter.mpr ⟨hmem, h⟩

/-- On a matched instance, the engine's `Id` write stores exactly the
matched record's identifier. -/
theorem withLookupId_of_matched {idFieldsNames : List String}
    {records : List SalesforceRecord} {inst : Instance} {r : SalesforceRecord}
    (hmatch : matchedRecord idFieldsNames records inst = some r) :
    withLookupId idFieldsNames (recordsLookup idFieldsNames records) inst =
      { inst with value := setField inst.value "Id" (.vStr r.Id) } := by
  simp only [withLookupId]
  rw [show recordsLookup idFieldsNames records (computeSaltoIdHash idFieldsNames inst.value)
      = matchedRecord idFieldsNames records inst from rfl, hmatch]
  rfl

/-- The mutation step keeps each per-record result unchanged. -/
theorem insertMutated_success (rs : List BatchResultInfo) (l : List Instance)
    (h : ∀ r ∈ rs, r.success = true) :
    ∀ ir ∈ insertMutated rs l, ir.result.success = true := by
  intro ir hir
  simp only [insertMutated, List.mem_map] at hir
  obtain ⟨ir₀, hir₀, heq⟩ := hir
  have := group_all_success l rs h ir₀ hir₀
  by_cases hs : ir₀.result.success = true
  · subst heq
    simp [hs]
  · exact absurd this hs

/-- With an all-success insert response, every mutated instance is a
success instance. -/
theorem insertSuccessesOf_all (rs : List BatchResultInfo) (l : List Instance)
    (h : ∀ r ∈ rs, r.success = true) :
    insertSuccessesOf rs l = (insertMutated rs l).map (fun ir => ir.inst) := by
  unfold insertSuccessesOf
  rw [List.filter_eq_self.mpr (insertMutated_success rs l h)]

/-! ## Claims -/

/-- Fixture values `{a: "1", b: "2"}` for the order-sensitivity half of the
hashing claim. -/
def orderDemoVals : Values :=
  .fcons "a" (.vStr "1") (.fcons "b" (.vStr "2") .fnil)

/-- C6: the identity hash is a pure function of the ordered identity-field
values only — two value assignments agreeing on every configured identity
field hash identically (so the hash is stable across repeated calls and
ignores non-identity fields) — and it is computed by iterating the
configured field names in their declared order, never alphabetically
sorted: swapping the configured order changes the hash for the same logical
values (`["a", "b"]` versus `["b", "a"]` over `{a: "1", b: "2"}`). -/
theorem saltoIdHash_pure_and_order_sensitive :
    (∀ (idFieldsNames : List String) (vals₁ vals₂ : Values),
        (∀ f ∈ idFieldsNames, getVal vals₁ f = getVal vals₂ f) →
        computeSaltoIdHash idFieldsNames vals₁ = computeSaltoIdHash idFieldsNames vals₂)
    ∧ computeSaltoIdHash ["a", "b"] orderDemoVals
        ≠ computeSaltoIdHash ["b", "a"] orderDemoVals := by
  constructor
  · intro idFieldsNames vals₁ vals₂ h
    have hmap : idFieldsNames.map (fun fieldName => (fieldName, getVal vals₁ fieldName))
        = idFieldsNames.map (fun fieldName => (fieldName, getVal vals₂ fieldName)) :=
      List.map_congr_left (fun f hf => by rw [h f hf])
    simp only [computeSaltoIdHash, hmap]
  · decide

/-- Fixture values `{a: "1", c: "3"}`. -/
def wVals₁ : Values := .fcons "a" (.vStr "1") (.fcons "c" (.vStr "3") .fnil)

/-- Fixture values `{c: "4", a: "1"}`: agrees with `wVals₁` on `a` only. -/
def wVals₂ : Values := .fcons "c" (.vStr "4") (.fcons "a" (.vStr "1") .fnil)

/-- Witness for C6: two concrete value assignments agreeing on the single
configured identity field `a` (and disagreeing elsewhere) hash
identically. -/
theorem saltoIdHash_pure_and_order_sensitive_witness :
    (∀ f ∈ ["a"], getVal wVals₁ f = getVal wVals₂ f)
    ∧ computeSaltoIdHash ["a"] wVals₁ = computeSaltoIdHash ["a"] wVals₂ :=
  ⟨by decide, saltoIdHash_pure_and_order_sensitive.1 ["a"] wVals₁ wVals₂ (by decide)⟩

/-- C7 counterexample: the normalization applied to fetched records before
hashing maps a `null`-valued entry to plain absence, not to a sentinel
distinct from absence — the normalized form of a record with `{a: null}` is
identical to that of the record with `a` absent. -/
theorem remoteNull_normalized_to_absence :
    cloneWithoutNulls (transformRecordToValues
        { Id := "X", fields := .fcons "a" .vNull .fnil })
      = cloneWithoutNulls (transformRecordToValues { Id := "X", fields := .fnil })
    ∧ cloneWithoutNulls (.fcons "a" .vNull .fnil) = .fnil :=
  ⟨rfl, rfl⟩

/-- C7 as amended: before hashing, a fetched record's `null`-valued entries
are removed (normalized to absence), so a record with `{a: null}` and one
with `a` absent always hash identically; and nulled/absent identity fields
do not collide with real (non-`null`) data, e.g. `{a: null}` hashes
differently from `{a: "v"}`. -/
theorem recordSaltoIdHash_null_matches_absence :
    (∀ (idFieldsNames : List String) (id k : String) (rest : Values),
        computeRecordSaltoIdHash idFieldsNames { Id := id, fields := .fcons k .vNull rest }
          = computeRecordSaltoIdHash idFieldsNames { Id := id, fields := rest })
    ∧ computeRecordSaltoIdHash ["a"] { Id := "X", fields := .fcons "a" .vNull .fnil }
        ≠ computeRecordSaltoIdHash ["a"] { Id := "X", fields := .fcons "a" (.vStr "v") .fnil } := by
  constructor
  · intro idFieldsNames id k rest
    rfl
  · decide

/-- C9 counterexample: invoking the delete executor with an empty instance
list still issues one remote bulk call (the source's `deleteInstances` has
no empty-input guard), submitting zero records — refuting the claim that
each of the three executors skips the remote call on empty input. -/
theorem deleteInstances_empty_still_calls :
    (deleteInstances "T" [] clientBlank).2 =
      [{ typeName := "T", op := "delete", records := [] }]
    ∧ (deleteInstances "T" [] clientBlank).1 =
        .ok { successInstances := [], errorMessages := [] } :=
  ⟨rfl, rfl⟩

/-- C9 as amended: the insert and update executors return an empty result
without issuing any remote bulk call when invoked with an empty instance
list, and issue exactly one bulk call for the (type, operation) pair when
the list is non-empty; the delete executor always issues exactly one bulk
call, including on an empty list. -/
theorem bulkExecutors_empty_batch_and_single_call :
    (∀ (typeName : String) (client : SalesforceClient),
        insertInstances typeName [] client =
          (.ok ({ successInstances := [], errorMessages := [] }, []), [])
        ∧ updateInstances typeName [] client =
            (.ok { successInstances := [], errorMessages := [] }, []))
    ∧ (∀ (typeName : String) (client : SalesforceClient) (instances : List Instance),
        instances ≠ [] →
          (insertInstances typeName instances client).2 =
            [{ typeName := typeName, op := "insert", records := instancesToCreateRecords instances }]
          ∧ (updateInstances typeName instances client).2 =
              [{ typeName := typeName, op := "update", records := instancesToUpdateRecords instances }])
    ∧ (∀ (typeName : String) (client : SalesforceClient) (instances : List Instance),
        (deleteInstances typeName instances client).2 =
          [{ typeName := typeName, op := "delete", records := instancesToDeleteRecords instances }]) :=
  ⟨fun typeName client => ⟨insertInstances_nil typeName client, updateInstances_nil typeName client⟩,
   fun typeName client instances hne =>
     ⟨insertInstances_calls typeName instances client hne,
      updateInstances_calls typeName instances client hne⟩,
   fun typeName client instances => deleteInstances_calls typeName instances client⟩

/-- Witness for C9 as amended: on the concrete non-empty batch `[inst1]`,
insert and update each issue exactly one bulk call. -/
theorem bulkExecutors_empty_batch_and_single_call_witness :
    [inst1] ≠ []
    ∧ ((insertInstances "T" [inst1] clientBlank).2 =
        [{ typeName := "T", op := "insert", records := instancesToCreateRecords [inst1] }]
      ∧ (updateInstances "T" [inst1] clientBlank).2 =
          [{ typeName := "T", op := "update", records := instancesToUpdateRecords [inst1] }]) :=
  ⟨by decide, bulkExecutors_empty_batch_and_single_call.2.1 "T" clientBlank [inst1] (by decide)⟩

/-- C3: for a batch of three insert candidates (no remote record matches —
the lookup fetches nothing) whose bulk insert call reports success for
records 0 and 2 (assigning fresh identifiers) and failure with error
strings for record 1, the outcome holds exactly the two applied `"add"`
changes, exactly one error (record 1's), and record 1's instance is
returned in its final state completely untouched — its `Id` field is never
written. -/
theorem insert_partial_failure_isolated
    (i₁ i₂ i₃ : Instance) (client : SalesforceClient)
    (id₁ id₂ : String) (errs : List String) (idFieldsNames : List String)
    (hq : client.fetchedRecords = .ok [])
    (hins : client.bulkLoadOperation i₁.typeName "insert"
        (instancesToCreateRecords [i₁, i₂, i₃])
      = .ok [{ success := true, id := some id₁, errors := none },
             { success := false, id := none, errors := some errs },
             { success := true, id := some id₂, errors := none }]) :
    (deployAddInstances [i₁, i₂, i₃] idFieldsNames client).1 =
      .ok ({ appliedChanges :=
               [{ action := "add", before := none, after := some (assignId i₁ (some id₁)) },
                { action := "add", before := none, after := some (assignId i₃ (some id₂)) }],
             errors := [i₂.name ++ ":\n    \t" ++ joinErrors (some errs)] },
           [], [assignId i₁ (some id₁), i₂, assignId i₃ (some id₂)]) := by
  have hne : ([i₁, i₂, i₃] : List Instance) ≠ [] := by simp
  have hins' := insertInstances_ok i₁.typeName [i₁, i₂, i₃] client _ hne hins
  simp only [deployAddInstances, getRecordsBySaltoIds, hq, List.headD_cons,
    List.partition_eq_filter_filter, keyBy, List.filter_nil, List.getLast?_nil,
    Option.isSome_none, List.filter_cons, Bool.not_false, if_true, if_false,
    cond_false, cond_true, Function.comp]
  rw [hins']
  simp [insertMutated, groupInstancesAndResultsByIndex, getAndLogErrors,
    getErrorMessagesFromInstAndResults, assignExistingIds, updateInstances_nil]

/-- Fixture collaborator for the partial-failure scenario: fetches no
records; the insert bulk call reports success for records 0 and 2 (with
fresh ids `N1`/`N2`) and failure with one error string for record 1. -/
def clientC3 : SalesforceClient :=
  { bulkLoadOperation := fun _ op _ =>
      if op = "insert" then
        .ok [{ success := true, id := some "N1", errors := none },
             { success := false, id := none, errors := some ["bad value"] },
             { success := true, id := some "N2", errors := none }]
      else .ok [],
    fetchedRecords := .ok [] }

/-- Witness for C3: the concrete three-candidate batch `[inst1, inst2,
inst3]` against `clientC3`. -/
theorem insert_partial_failure_isolated_witness :
    (clientC3.fetchedRecords = .ok []
     ∧ clientC3.bulkLoadOperation inst1.typeName "insert"
         (instancesToCreateRecords [inst1, inst2, inst3])
       = .ok [{ success := true, id := some "N1", errors := none },
              { success := false, id := none, errors := some ["bad value"] },
              { success := true, id := some "N2", errors := none }])
    ∧ (deployAddInstances [inst1, inst2, inst3] ["Name"] clientC3).1 =
        .ok ({ appliedChanges :=
                 [{ action := "add", before := none, after := some (assignId inst1 (some "N1")) },
                  { action := "add", before := none, after := some (assignId inst3 (some "N2")) }],
               errors := [inst2.name ++ ":\n    \t" ++ joinErrors (some ["bad value"])] },
             [], [assignId inst1 (some "N1"), inst2, assignId inst3 (some "N2")]) :=
  ⟨⟨rfl, rfl⟩,
   insert_partial_failure_isolated inst1 inst2 inst3 clientC3 "N1" "N2" ["bad value"]
     ["Name"] rfl rfl⟩

/-- C1: in an Add change group, an instance whose identity hash equals the
identity hash of some fetched remote record is submitted — carrying that
record's `Id` — in the bulk update call, while every bulk insert call is
built from exactly the unmatched instances (so the matched instance is
never an insert candidate); and after a successful reconciliation (the
update results all succeed) the instance's final state, also reported
applied, carries the matched record's pre-existing `Id`, which the update
path never replaces with a newly assigned one. -/
theorem addGroup_matched_instance_updated_not_inserted
    (instances : List Instance) (idFieldsNames : List String) (client : SalesforceClient)
    (records : List SalesforceRecord) (irs urs : List BatchResultInfo)
    (inst : Instance) (r : SalesforceRecord)
    (hq : client.fetchedRecords = .ok records)
    (hins : client.bulkLoadOperation (instances.headD dummyInstance).typeName "insert"
        (instancesToCreateRecords (newOf idFieldsNames records instances)) = .ok irs)
    (hupd : client.bulkLoadOperation (instances.headD dummyInstance).typeName "update"
        (instancesToUpdateRecords (updatedExistingOf idFieldsNames records instances)) = .ok urs)
    (husucc : ∀ u ∈ urs, u.success = true)
    (hulen : urs.length = (updatedExistingOf idFieldsNames records instances).length)
    (hmem : inst ∈ instances)
    (hmatch : matchedRecord idFieldsNames records inst = some r) :
    (∃ c ∈ (deployAddInstances instances idFieldsNames client).2,
        c.op = "update" ∧ setField inst.value "Id" (.vStr r.Id) ∈ c.records)
    ∧ (∀ c ∈ (deployAddInstances instances idFieldsNames client).2, c.op = "insert" →
        c.records = instancesToCreateRecords (newOf idFieldsNames records instances))
    ∧ (∃ dr exFinal newFinal,
        (deployAddInstances instances idFieldsNames client).1 = .ok (dr, exFinal, newFinal)
        ∧ { inst with value := setField inst.value "Id" (.vStr r.Id) } ∈ exFinal
        ∧ { action := "add", before := none,
            after := some { inst with value := setField inst.value "Id" (.vStr r.Id) } }
            ∈ dr.appliedChanges)
    ∧ getVal (setField inst.value "Id" (.vStr r.Id)) "Id" = some (.vStr r.Id) := by
  have hex : inst ∈ existingOf idFieldsNames records instances :=
    mem_existingOf hmem (by simp [hmatch])
  have hmut : withLookupId idFieldsNames (recordsLookup idFieldsNames records) inst =
      { inst with value := setField inst.value "Id" (.vStr r.Id) } :=
    withLookupId_of_matched hmatch
  have hmue : ({ inst with value := setField inst.value "Id" (.vStr r.Id) } : Instance)
      ∈ updatedExistingOf idFieldsNames records instances := by
    rw [← hmut]
    exact List.mem_map_of_mem _ hex
  have hue : updatedExistingOf idFieldsNames records instances ≠ [] := by
    intro h
    rw [h] at hmue
    exact (List.not_mem_nil _) hmue
  have hrun := deployAddInstances_run instances idFieldsNames client records irs urs hq hins hupd
  refine ⟨?_, ?_, ?_, getVal_setField_self inst.value "Id" (.vStr r.Id)⟩
  · refine ⟨{ typeName := (instances.headD dummyInstance).typeName, op := "update",
              records := instancesToUpdateRecords
                (updatedExistingOf idFieldsNames records instances) }, ?_, rfl, ?_⟩
    · rw [hrun]
      simp [hue]
    · exact List.mem_map_of_mem (fun i => i.value) hmue
  · intro c hc hop
    rw [hrun] at hc
    simp only [List.mem_append] at hc
    rcases hc with hc | hc
    · by_cases hni : newOf idFieldsNames records instances = []
      · rw [if_pos hni] at hc
        exact absurd hc (List.not_mem_nil c)
      · rw [if_neg hni, List.mem_singleton] at hc
        rw [hc]
    · rw [if_neg hue, List.mem_singleton] at hc
      rw [hc] at hop
      simp at hop
  · refine ⟨_, _, _, by rw [hrun], hmue, ?_⟩
    apply List.mem_map_of_mem
    apply List.mem_append_right
    rw [show updateSuccessesOf urs (updatedExistingOf idFieldsNames records instances)
        = updatedExistingOf idFieldsNames records instances from
      group_filter_success _ urs hulen husucc]
    exact hmue

/-- Witness for C1: the concrete batch `[inst1, inst2]` against
`clientMatch` — `inst1` matches `rec1` (identity `Name = "x"`), `inst2`
does not; the matched instance goes out in the update call with `ID1` and
ends up carrying `ID1`, not the freshly assigned `NEW`. -/
theorem addGroup_matched_instance_updated_not_inserted_witness :
    (clientMatch.fetchedRecords = .ok [rec1]
     ∧ inst1 ∈ [inst1, inst2]
     ∧ matchedRecord ["Name"] [rec1] inst1 = some rec1)
    ∧ ((∃ c ∈ (deployAddInstances [inst1, inst2] ["Name"] clientMatch).2,
          c.op = "update" ∧ setField inst1.value "Id" (.vStr rec1.Id) ∈ c.records)
       ∧ (∀ c ∈ (deployAddInstances [inst1, inst2] ["Name"] clientMatch).2, c.op = "insert" →
            c.records = instancesToCreateRecords (newOf ["Name"] [rec1] [inst1, inst2]))
       ∧ (∃ dr exFinal newFinal,
            (deployAddInstances [inst1, inst2] ["Name"] clientMatch).1 = .ok (dr, exFinal, newFinal)
            ∧ { inst1 with value := setField inst1.value "Id" (.vStr rec1.Id) } ∈ exFinal
            ∧ { action := "add", before := none,
                after := some { inst1 with value := setField inst1.value "Id" (.vStr rec1.Id) } }
                ∈ dr.appliedChanges)
       ∧ getVal (setField inst1.value "Id" (.vStr rec1.Id)) "Id" = some (.vStr rec1.Id)) :=
  ⟨⟨rfl, by decide, by decide⟩,
   addGroup_matched_instance_updated_not_inserted [inst1, inst2] ["Name"] clientMatch [rec1]
     [{ success := true, id := some "NEW", errors := none }]
     [{ success := true, id := none, errors := none }]
     inst1 rec1 rfl (by rfl) (by rfl) (by decide) (by decide) (by decide) (by decide)⟩

/-- C2 counterexample: `inst1` matches `rec1` and succeeds via the (only)
bulk update call, yet the applied change reporting it carries action
`"add"` — not a `"modify"`-class change as the claim states:
`deployAddInstances` tags every success `'add'`. -/
theorem matched_update_reported_as_add_not_modify :
    (deployAddInstances [inst1] ["Name"] clientMatch).2 =
      [{ typeName := "T", op := "update",
         records := [.fcons "Name" (.vStr "x") (.fcons "Id" (.vStr "ID1") .fnil)] }]
    ∧ (deployAddInstances [inst1] ["Name"] clientMatch).1 =
        .ok ({ appliedChanges :=
                 [{ action := "add", before := none,
                    after := some { inst1 with
                      value := .fcons "Name" (.vStr "x") (.fcons "Id" (.vStr "ID1") .fnil) } }],
               errors := [] },
             [{ inst1 with
                  value := .fcons "Name" (.vStr "x") (.fcons "Id" (.vStr "ID1") .fnil) }], []) :=
  ⟨rfl, rfl⟩

/-- C2 as amended: every instance that succeeds in an Add change group is
reported as an applied change with action `"add"` — including instances
matched as existing that succeeded via the bulk update (the source never
reclassifies them as `"modify"`); a matched success carries the
pre-existing identifier, while the insert successes are exactly the new
instances mutated with their freshly assigned identifiers. -/
theorem addGroup_successes_reported_as_add
    (instances : List Instance) (idFieldsNames : List String) (client : SalesforceClient)
    (records : List SalesforceRecord) (irs urs : List BatchResultInfo)
    (hq : client.fetchedRecords = .ok records)
    (hins : client.bulkLoadOperation (instances.headD dummyInstance).typeName "insert"
        (instancesToCreateRecords (newOf idFieldsNames records instances)) = .ok irs)
    (hupd : client.bulkLoadOperation (instances.headD dummyInstance).typeName "update"
        (instancesToUpdateRecords (updatedExistingOf idFieldsNames records instances)) = .ok urs)
    (hisucc : ∀ u ∈ irs, u.success = true)
    (husucc : ∀ u ∈ urs, u.success = true)
    (hulen : urs.length = (updatedExistingOf idFieldsNames records instances).length) :
    ∃ dr,
      (deployAddInstances instances idFieldsNames client).1 =
        .ok (dr, updatedExistingOf idFieldsNames records instances,
             (insertMutated irs (newOf idFieldsNames records instances)).map (fun ir => ir.inst))
      ∧ dr.appliedChanges =
          ((insertMutated irs (newOf idFieldsNames records instances)).map (fun ir => ir.inst)
              ++ updatedExistingOf idFieldsNames records instances).map
            (fun inst => { action := "add", before := none, after := some inst })
      ∧ (∀ ac ∈ dr.appliedChanges, ac.action = "add")
      ∧ (∀ inst ∈ instances, ∀ r, matchedRecord idFieldsNames records inst = some r →
          { action := "add", before := none,
            after := some { inst with value := setField inst.value "Id" (.vStr r.Id) } }
            ∈ dr.appliedChanges) := by
  have hrun := deployAddInstances_run instances idFieldsNames client records irs urs hq hins hupd
  have hisucc' := insertSuccessesOf_all irs (newOf idFieldsNames records instances) hisucc
  have husucc' : updateSuccessesOf urs (updatedExistingOf idFieldsNames records instances)
      = updatedExistingOf idFieldsNames records instances :=
    group_filter_success _ urs hulen husucc
  refine ⟨_, by rw [hrun], ?_, ?_, ?_⟩
  · rw [hisucc', husucc']
  · intro ac hac
    rw [hisucc', husucc'] at hac
    obtain ⟨i, _, rfl⟩ := List.mem_map.mp hac
    rfl
  · intro inst hmem r hmatch
    rw [hisucc', husucc']
    apply List.mem_map_of_mem
    apply List.mem_append_right
    rw [← withLookupId_of_matched hmatch]
    exact List.mem_map_of_mem _ (mem_existingOf hmem (by simp [hmatch]))

/-- Witness for C2 as amended: the concrete batch `[inst1, inst2]` against
`clientMatch` — the matched `inst1` and the inserted `inst2` are both
reported with action `"add"`. -/
theorem addGroup_successes_reported_as_add_witness :
    (clientMatch.fetchedRecords = .ok [rec1]
     ∧ (∀ u ∈ ([{ success := true, id := some "NEW", errors := none }] : List BatchResultInfo),
          u.success = true))
    ∧ ∃ dr,
        (deployAddInstances [inst1, inst2] ["Name"] clientMatch).1 =
          .ok (dr, updatedExistingOf ["Name"] [rec1] [inst1, inst2],
               (insertMutated [{ success := true, id := some "NEW", errors := none }]
                   (newOf ["Name"] [rec1] [inst1, inst2])).map (fun ir => ir.inst))
        ∧ dr.appliedChanges =
            ((insertMutated [{ success := true, id := some "NEW", errors := none }]
                  (newOf ["Name"] [rec1] [inst1, inst2])).map (fun ir => ir.inst)
                ++ updatedExistingOf ["Name"] [rec1] [inst1, inst2]).map
              (fun inst => { action := "add", before := none, after := some inst })
        ∧ (∀ ac ∈ dr.appliedChanges, ac.action = "add")
        ∧ (∀ inst ∈ [inst1, inst2], ∀ r, matchedRecord ["Name"] [rec1] inst = some r →
            { action := "add", before := none,
              after := some { inst with value := setField inst.value "Id" (.vStr r.Id) } }
              ∈ dr.appliedChanges) :=
  ⟨⟨rfl, by decide⟩,
   addGroup_successes_reported_as_add [inst1, inst2] ["Name"] clientMatch [rec1]
     [{ success := true, id := some "NEW", errors := none }]
     [{ success := true, id := none, errors := none }]
     rfl (by rfl) (by rfl) (by decide) (by decide) (by decide)⟩

/-- C8 counterexample: two local instances with identical identity values
(hence the same identity hash) and no matching remote record are both
submitted in the single bulk insert call and both reported applied with
zero errors — the engine silently duplicate-inserts; no explicit error
condition surfaces the collision. -/
theorem duplicate_hash_silently_double_inserted :
    computeSaltoIdHash ["Name"] instDupA.value = computeSaltoIdHash ["Name"] instDupB.value
    ∧ (deployAddInstances [instDupA, instDupB] ["Name"] clientBlank).2 =
        [{ typeName := "T", op := "insert",
           records := [.fcons "Name" (.vStr "w") .fnil, .fcons "Name" (.vStr "w") .fnil] }]
    ∧ (deployAddInstances [instDupA, instDupB] ["Name"] clientBlank).1 =
        .ok ({ appliedChanges :=
                 [{ action := "add", before := none, after := some instDupA },
                  { action := "add", before := none, after := some instDupB }],
               errors := [] },
             [], [instDupA, instDupB]) :=
  ⟨rfl, rfl, rfl⟩

/-- C8 as amended: two local instances of the same Add batch that hash to
the same identity value are not surfaced as an error condition — when the
shared hash misses the remote lookup, both instances are submitted together
in the single bulk insert call (a silent duplicate insert), and when the
inserts succeed the outcome carries no error for the collision. -/
theorem duplicate_hash_both_inserted_no_error
    (instances : List Instance) (idFieldsNames : List String) (client : SalesforceClient)
    (records : List SalesforceRecord) (irs urs : List BatchResultInfo)
    (i j : Instance)
    (hq : client.fetchedRecords = .ok records)
    (hins : client.bulkLoadOperation (instances.headD dummyInstance).typeName "insert"
        (instancesToCreateRecords (newOf idFieldsNames records instances)) = .ok irs)
    (hupd : client.bulkLoadOperation (instances.headD dummyInstance).typeName "update"
        (instancesToUpdateRecords (updatedExistingOf idFieldsNames records instances)) = .ok urs)
    (hisucc : ∀ u ∈ irs, u.success = true)
    (husucc : ∀ u ∈ urs, u.success = true)
    (hmemi : i ∈ instances) (hmemj : j ∈ instances)
    (hhash : computeSaltoIdHash idFieldsNames i.value = computeSaltoIdHash idFieldsNames j.value)
    (hmiss : matchedRecord idFieldsNames records i = none) :
    matchedRecord idFieldsNames records j = none
    ∧ (∃ c ∈ (deployAddInstances instances idFieldsNames client).2,
        c.op = "insert"
        ∧ removeField i.value "Id" ∈ c.records ∧ removeField j.value "Id" ∈ c.records)
    ∧ (∃ dr exFinal newFinal,
        (deployAddInstances instances idFieldsNames client).1 = .ok (dr, exFinal, newFinal)
        ∧ dr.errors = []) := by
  have hmissj : matchedRecord idFieldsNames records j = none := by
    rw [show matchedRecord idFieldsNames records j
        = recordsLookup idFieldsNames records (computeSaltoIdHash idFieldsNames j.value) from rfl,
      ← hhash]
    exact hmiss
  have hni : i ∈ newOf idFieldsNames records instances :=
    List.mem_filter.mpr ⟨hmemi, by simp [hmiss]⟩
  have hnj : j ∈ newOf idFieldsNames records instances :=
    List.mem_filter.mpr ⟨hmemj, by simp [hmissj]⟩
  have hnne : newOf idFieldsNames records instances ≠ [] := by
    intro h
    rw [h] at hni
    exact (List.not_mem_nil _) hni
  have hrun := deployAddInstances_run instances idFieldsNames client records irs urs hq hins hupd
  refine ⟨hmissj, ?_, ?_⟩
  · refine ⟨{ typeName := (instances.headD dummyInstance).typeName, op := "insert",
              records := instancesToCreateRecords (newOf idFieldsNames records instances) },
      ?_, rfl, ?_, ?_⟩
    · rw [hrun]
      simp [hnne]
    · exact List.mem_map_of_mem (fun inst => removeField inst.value "Id") hni
    · exact List.mem_map_of_mem (fun inst => removeField inst.value "Id") hnj
  · refine ⟨_, _, _, by rw [hrun], ?_⟩
    rw [getAndLogErrors_all_success _
        (insertMutated_success irs (newOf idFieldsNames records instances) hisucc),
      getAndLogErrors_all_success _
        (group_all_success (updatedExistingOf idFieldsNames records instances) urs husucc)]
    rfl

/-- Witness for C8 as amended: the concrete duplicate pair
`[instDupA, instDupB]` against `clientBlank` — same hash, both in the one
insert call, no error. -/
theorem duplicate_hash_both_inserted_no_error_witness :
    (computeSaltoIdHash ["Name"] instDupA.value = computeSaltoIdHash ["Name"] instDupB.value
     ∧ matchedRecord ["Name"] [] instDupA = none)
    ∧ (matchedRecord ["Name"] [] instDupB = none
       ∧ (∃ c ∈ (deployAddInstances [instDupA, instDupB] ["Name"] clientBlank).2,
            c.op = "insert"
            ∧ removeField instDupA.value "Id" ∈ c.records
            ∧ removeField instDupB.value "Id" ∈ c.records)
       ∧ (∃ dr exFinal newFinal,
            (deployAddInstances [instDupA, instDupB] ["Name"] clientBlank).1 =
              .ok (dr, exFinal, newFinal)
            ∧ dr.errors = [])) :=
  ⟨⟨by decide, by decide⟩,
   duplicate_hash_both_inserted_no_error [instDupA, instDupB] ["Name"] clientBlank []
     [{ success := true, id := none, errors := none },
      { success := true, id := none, errors := none }] []
     instDupA instDupB rfl (by rfl) (by rfl) (by decide) (by decide) (by decide) (by decide)
     (by decide) (by decide)⟩

/-- C10: in an Add change group, every instance matched to an existing
remote record has that record's `Id` written into its value before the
bulk update is issued — the update call's payload already carries it — and
the mutation is part of the instance's final state whatever the per-record
update outcomes are (the conclusion does not constrain the update results);
concretely, with an update that fails `inst1`'s record, the outcome reports
no applied change and one error while `inst1`'s final state still carries
the pre-existing `ID1`. -/
theorem addGroup_matched_id_written_before_update_and_persists :
    (∀ (instances : List Instance) (idFieldsNames : List String) (client : SalesforceClient)
       (records : List SalesforceRecord) (irs urs : List BatchResultInfo)
       (inst : Instance) (r : SalesforceRecord),
      client.fetchedRecords = .ok records →
      client.bulkLoadOperation (instances.headD dummyInstance).typeName "insert"
          (instancesToCreateRecords (newOf idFieldsNames records instances)) = .ok irs →
      client.bulkLoadOperation (instances.headD dummyInstance).typeName "update"
          (instancesToUpdateRecords (updatedExistingOf idFieldsNames records instances)) = .ok urs →
      inst ∈ instances →
      matchedRecord idFieldsNames records inst = some r →
      (∀ c ∈ (deployAddInstances instances idFieldsNames client).2, c.op = "update" →
          setField inst.value "Id" (.vStr r.Id) ∈ c.records)
      ∧ (∃ dr exFinal newFinal,
          (deployAddInstances instances idFieldsNames client).1 = .ok (dr, exFinal, newFinal)
          ∧ { inst with value := setField inst.value "Id" (.vStr r.Id) } ∈ exFinal))
    ∧ (deployAddInstances [inst1] ["Name"] clientUpdateFails).1 =
        .ok ({ appliedChanges := [],
               errors := [inst1.name ++ ":\n    \t" ++ joinErrors (some ["locked"])] },
             [{ inst1 with
                  value := .fcons "Name" (.vStr "x") (.fcons "Id" (.vStr "ID1") .fnil) }], [])
    ∧ (deployAddInstances [inst1] ["Name"] clientUpdateFails).2 =
        [{ typeName := "T", op := "update",
           records := [.fcons "Name" (.vStr "x") (.fcons "Id" (.vStr "ID1") .fnil)] }] := by
  refine ⟨?_, rfl, rfl⟩
  intro instances idFieldsNames client records irs urs inst r hq hins hupd hmem hmatch
  have hex : inst ∈ existingOf idFieldsNames records instances :=
    mem_existingOf hmem (by simp [hmatch])
  have hmue : ({ inst with value := setField inst.value "Id" (.vStr r.Id) } : Instance)
      ∈ updatedExistingOf idFieldsNames records instances := by
    rw [← withLookupId_of_matched hmatch]
    exact List.mem_map_of_mem _ hex
  have hue : updatedExistingOf idFieldsNames records instances ≠ [] := by
    intro h
    rw [h] at hmue
    exact (List.not_mem_nil _) hmue
  have hrun := deployAddInstances_run instances idFieldsNames client records irs urs hq hins hupd
  constructor
  · intro c hc hop
    rw [hrun] at hc
    simp only [List.mem_append] at hc
    rcases hc with hc | hc
    · by_cases hni : newOf idFieldsNames records instances = []
      · rw [if_pos hni] at hc
        exact absurd hc (List.not_mem_nil c)
      · rw [if_neg hni, List.mem_singleton] at hc
        rw [hc] at hop
        simp at hop
    · rw [if_neg hue, List.mem_singleton] at hc
      rw [hc]
      exact List.mem_map_of_mem (fun i => i.value) hmue
  · exact ⟨_, _, _, by rw [hrun], hmue⟩

/-- Witness for C10's universal part: the concrete batch `[inst1]` against
`clientUpdateFails` — the update call carries `ID1` in `inst1`'s record and
the final state keeps it although the update failed. -/
theorem addGroup_matched_id_written_before_update_and_persists_witness :
    (clientUpdateFails.fetchedRecords = .ok [rec1]
     ∧ inst1 ∈ [inst1] ∧ matchedRecord ["Name"] [rec1] inst1 = some rec1)
    ∧ ((∀ c ∈ (deployAddInstances [inst1] ["Name"] clientUpdateFails).2, c.op = "update" →
          setField inst1.value "Id" (.vStr rec1.Id) ∈ c.records)
       ∧ (∃ dr exFinal newFinal,
            (deployAddInstances [inst1] ["Name"] clientUpdateFails).1 =
              .ok (dr, exFinal, newFinal)
            ∧ { inst1 with value := setField inst1.value "Id" (.vStr rec1.Id) } ∈ exFinal)) :=
  ⟨⟨rfl, by decide, by decide⟩,
   addGroup_matched_id_written_before_update_and_persists.1 [inst1] ["Name"] clientUpdateFails
     [rec1] []
     [{ success := false, id := none, errors := some ["locked"] }]
     inst1 rec1 rfl (by rfl) (by rfl) (by decide) (by decide)⟩

mutual

theorem valueBeq_refl : ∀ v : Value, valueBeq v v = true
  | .vNull => rfl
  | .vBool b => by simp [valueBeq]
  | .vNum n => by simp [valueBeq]
  | .vStr s => by simp [valueBeq]
  | .vObj fs => by simp [valueBeq, fieldsBeq_refl fs]

theorem fieldsBeq_refl : ∀ fs : Fields, fieldsBeq fs fs = true
  | .fnil => rfl
  | .fcons k v rest => by simp [fieldsBeq, valueBeq_refl v, fieldsBeq_refl rest]

end

theorem Instance.isEqual_refl (a : Instance) : a.isEqual a = true := by
  simp [Instance.isEqual, fieldsBeq_refl]

/-- The modify changes whose before- and after-api-names agree (submitted
in the bulk update). -/
def validModifyOf (changesData : List ModificationData) : List ModificationData :=
  changesData.filter (fun cd => cd.before.apiNameV = cd.after.apiNameV)

/-- The modify changes whose before- and after-api-names differ (excluded
from the bulk update). -/
def diffApiNameOf (changesData : List ModificationData) : List ModificationData :=
  changesData.filter (not ∘ fun cd => cd.before.apiNameV = cd.after.apiNameV)

/-- C5: in a Modify change group, each change whose before and after unique
identifiers (api names) differ is excluded from the bulk update call —
which submits exactly the agreeing changes' after states — and contributes
exactly one standalone error; under an all-success update response, the
agreeing changes are all reported as applied `"modify"` changes. -/
theorem modify_identity_change_rejected_siblings_succeed
    (changesData : List ModificationData) (client : SalesforceClient)
    (urs : List BatchResultInfo)
    (hupd : client.bulkLoadOperation (changesData.headD dummyModification).after.typeName
        "update" (instancesToUpdateRecords ((validModifyOf changesData).map (fun cd => cd.after)))
      = .ok urs)
    (husucc : ∀ u ∈ urs, u.success = true)
    (hulen : urs.length = (validModifyOf changesData).length) :
    deployModifyChanges changesData client =
      (.ok { appliedChanges := (validModifyOf changesData).map (fun cd =>
               { action := "modify", before := some cd.before, after := some cd.after }),
             errors := (diffApiNameOf changesData).map (fun cd =>
               "Failed to update as api name prev=" ++ cd.before.apiNameV
                 ++ " and new=" ++ cd.after.apiNameV ++ " are different") },
       if validModifyOf changesData = [] then []
       else [{ typeName := (changesData.headD dummyModification).after.typeName, op := "update",
               records := instancesToUpdateRecords
                 ((validModifyOf changesData).map (fun cd => cd.after)) }]) := by
  have hfval : changesData.filter (fun cd => cd.before.apiNameV = cd.after.apiNameV)
      = validModifyOf changesData := rfl
  have hfdiff : changesData.filter (not ∘ fun cd => cd.before.apiNameV = cd.after.apiNameV)
      = diffApiNameOf changesData := rfl
  simp only [deployModifyChanges, List.partition_eq_filter_filter, hfval, hfdiff]
  by_cases hv : validModifyOf changesData = []
  · rw [hv]
    simp only [List.map_nil, updateInstances_nil]
    simp [hv, List.filter_eq_nil_iff]
  · have hne : (validModifyOf changesData).map (fun cd => cd.after) ≠ [] := by
      intro h
      exact hv (List.map_eq_nil_iff.mp h)
    have hupd' := updateInstances_ok _ _ _ _ hne hupd
    rw [hupd']
    have hact := getActionResult_all_success ((validModifyOf changesData).map (fun cd => cd.after))
      urs (by rw [hulen, List.length_map]) husucc
    rw [hact]
    have hsucc : (validModifyOf changesData).filter (fun cd =>
        (((validModifyOf changesData).map (fun cd => cd.after)).find?
          (fun inst => inst.isEqual cd.after)).isSome) = validModifyOf changesData := by
      rw [List.filter_eq_self]
      intro cd hcd
      rw [List.find?_isSome]
      exact ⟨cd.after, List.mem_map_of_mem _ hcd, Instance.isEqual_refl cd.after⟩
    simp only [hsucc]
    simp [hv, getAndLogErrors_all_success]

/-- Fixture modify change keeping the api name `i1`. -/
def modSame : ModificationData :=
  { before := inst1, after := { inst1 with value := .fcons "Name" (.vStr "x2") .fnil } }

/-- Fixture modify change renaming `i2` to `i2renamed` (identity change). -/
def modRenamed : ModificationData :=
  { before := inst2, after := { inst2 with apiNameV := "i2renamed" } }

/-- Witness for C5: the concrete batch `[modSame, modRenamed]` against
`clientBlank` — the renamed change is excluded from the bulk update and
yields one standalone error while `modSame` is submitted and applied. -/
theorem modify_identity_change_rejected_siblings_succeed_witness :
    ((∀ u ∈ ([{ success := true, id := none, errors := none }] : List BatchResultInfo),
        u.success = true)
     ∧ ([{ success := true, id := none, errors := none }] : List BatchResultInfo).length
         = (validModifyOf [modSame, modRenamed]).length)
    ∧ deployModifyChanges [modSame, modRenamed] clientBlank =
        (.ok { appliedChanges := (validModifyOf [modSame, modRenamed]).map (fun cd =>
                 { action := "modify", before := some cd.before, after := some cd.after }),
               errors := (diffApiNameOf [modSame, modRenamed]).map (fun cd =>
                 "Failed to update as api name prev=" ++ cd.before.apiNameV
                   ++ " and new=" ++ cd.after.apiNameV ++ " are different") },
         if validModifyOf [modSame, modRenamed] = [] then []
         else [{ typeName := ([modSame, modRenamed].headD dummyModification).after.typeName,
                 op := "update",
                 records := instancesToUpdateRecords
                   ((validModifyOf [modSame, modRenamed]).map (fun cd => cd.after)) }]) :=
  ⟨⟨by decide, by decide⟩,
   modify_identity_change_rejected_siblings_succeed [modSame, modRenamed] clientBlank
     [{ success := true, id := none, errors := none }] (by rfl) (by decide) (by decide)⟩

/-- The `catch` of the group deploy: a thrown error becomes a result with no
applied changes and that single error. -/
theorem group_catch (changes : List Change) (client : SalesforceClient)
    (dataManagement : Option DataManagement) (e : String)
    (h : (deployCustomObjectInstancesGroupInner changes client dataManagement).1 = .error e) :
    (deployCustomObjectInstancesGroup changes client dataManagement).1 =
      { appliedChanges := [], errors := [e] } := by
  unfold deployCustomObjectInstancesGroup
  rcases hx : deployCustomObjectInstancesGroupInner changes client dataManagement with ⟨res, calls⟩
  rw [hx] at h
  simp only at h
  rw [h]

/-- The fatal conditions named by the spec for a group deploy: more than one
record type among the changes, missing dataManagement configuration,
invalid salto id fields on an addition group, a change group mixing action
kinds, or any error thrown inside the group deploy's `try` block (which
covers every transport-level failure of the lookup query or of a bulk
call, since those propagate out of the deploy unhandled). -/
def fatalGroupCondition (changes : List Change) (client : SalesforceClient)
    (dataManagement : Option DataManagement) : Prop :=
  1 < (uniqueList ((changes.map getChangeElement).map (fun inst => inst.typeName))).length
  ∨ (changes ≠ []
      ∧ actualDataManagement (changes.map getChangeElement) dataManagement = none)
  ∨ (changes ≠ [] ∧ changes.all Change.isAddition = true
      ∧ ∀ adm, actualDataManagement (changes.map getChangeElement) dataManagement = some adm →
          (getIdFields ((changes.map getChangeElement).headD dummyInstance).typeName adm).2 ≠ [])
  ∨ (changes.all Change.isAddition = false ∧ changes.all Change.isRemoval = false
      ∧ changes.all Change.isModification = false)
  ∨ (∃ e, (deployCustomObjectInstancesGroupInner changes client dataManagement).1 = .error e)

/-- C4: `deployCustomObjectInstancesGroup` never throws — under every fatal
condition (mixed record types, missing dataManagement configuration,
invalid salto id fields, mixed action kinds, or a transport-level failure
of the lookup query or of a bulk call, all of which surface as a thrown
error inside the `try` block) it returns a `DeployResult` with zero
applied changes and exactly one error entry. -/
theorem groupDeploy_fatal_conditions_one_error
    (changes : List Change) (client : SalesforceClient)
    (dataManagement : Option DataManagement)
    (h : fatalGroupCondition changes client dataManagement) :
    (deployCustomObjectInstancesGroup changes client dataManagement).1.appliedChanges = []
    ∧ (deployCustomObjectInstancesGroup changes client dataManagement).1.errors.length = 1 := by
  have hkey : ∃ e,
      (deployCustomObjectInstancesGroupInner changes client dataManagement).1 = .error e := by
    rcases h with h1 | ⟨hne, hdm⟩ | ⟨hne, hall, hinv⟩ | ⟨ha, hr, hm⟩ | h5
    · exact ⟨_, by
        simp only [deployCustomObjectInstancesGroupInner]
        rw [if_pos h1]⟩
    · rcases changes with _ | ⟨c, cs⟩
      · exact absurd rfl hne
      · by_cases h1 : 1 < (uniqueList (((c :: cs).map getChangeElement).map
            (fun inst => inst.typeName))).length
        · exact ⟨_, by
            simp only [deployCustomObjectInstancesGroupInner]
            rw [if_pos h1]⟩
        · simp only [List.map_cons] at hdm
          exact ⟨_, by
            simp only [deployCustomObjectInstancesGroupInner]
            rw [if_neg h1]
            simp only [List.map_cons, List.isEmpty_cons, Bool.false_eq_true, if_false]
            rw [hdm]⟩
    · rcases changes with _ | ⟨c, cs⟩
      · exact absurd rfl hne
      · by_cases h1 : 1 < (uniqueList (((c :: cs).map getChangeElement).map
            (fun inst => inst.typeName))).length
        · exact ⟨_, by
            simp only [deployCustomObjectInstancesGroupInner]
            rw [if_pos h1]⟩
        · cases hadm : actualDataManagement ((c :: cs).map getChangeElement) dataManagement with
          | none =>
            simp only [List.map_cons] at hadm
            exact ⟨_, by
              simp only [deployCustomObjectInstancesGroupInner]
              rw [if_neg h1]
              simp only [List.map_cons, List.isEmpty_cons, Bool.false_eq_true, if_false]
              rw [hadm]⟩
          | some adm =>
            have hinv' := hinv adm hadm
            have hinvempty : ((getIdFields (((c :: cs).map getChangeElement).headD
                dummyInstance).typeName adm).2).isEmpty = false := by
              rcases hx : (getIdFields (((c :: cs).map getChangeElement).headD
                  dummyInstance).typeName adm).2 with _ | ⟨a, as⟩
              · exact absurd hx hinv'
              · rfl
            simp only [List.map_cons] at hadm
            simp only [List.map_cons, List.headD_cons, getIdFields] at hinvempty
            exact ⟨_, by
              simp only [deployCustomObjectInstancesGroupInner]
              rw [if_neg h1]
              simp only [List.map_cons, List.isEmpty_cons, Bool.false_eq_true, if_false]
              rw [hadm]
              simp [hall, getIdFields, hinvempty]
              rfl⟩
    · rcases changes with _ | ⟨c, cs⟩
      · simp at ha
      · by_cases h1 : 1 < (uniqueList (((c :: cs).map getChangeElement).map
            (fun inst => inst.typeName))).length
        · exact ⟨_, by
            simp only [deployCustomObjectInstancesGroupInner]
            rw [if_pos h1]⟩
        · cases hadm : actualDataManagement ((c :: cs).map getChangeElement) dataManagement with
          | none =>
            simp only [List.map_cons] at hadm
            exact ⟨_, by
              simp only [deployCustomObjectInstancesGroupInner]
              rw [if_neg h1]
              simp only [List.map_cons, List.isEmpty_cons, Bool.false_eq_true, if_false]
              rw [hadm]⟩
          | some adm =>
            simp only [List.map_cons] at hadm
            exact ⟨_, by
              simp only [deployCustomObjectInstancesGroupInner]
              rw [if_neg h1]
              simp only [List.map_cons, List.isEmpty_cons, Bool.false_eq_true, if_false]
              rw [hadm]
              simp only [ha, hr, hm, Bool.false_eq_true, if_false]
              rfl⟩
    · exact h5
  obtain ⟨e, he⟩ := hkey
  rw [group_catch changes client dataManagement e he]
  exact ⟨rfl, rfl⟩

/-- Fixture configuration resolving identity field `Name` for every type,
with no invalid fields. -/
def dmOk : DataManagement :=
  { idFieldsFor := fun _ => ["Name"], invalidFieldsFor := fun _ => [] }

/-- Fixture collaborator whose lookup query fails at the transport level. -/
def clientQueryFails : SalesforceClient :=
  { bulkLoadOperation := fun _ _ recs =>
      .ok (recs.map (fun _ => { success := true, id := none, errors := none })),
    fetchedRecords := .error "ECONNRESET" }

/-- Witness for C4: a concrete addition group whose lookup query fails at
the transport level — the thrown error is caught and the group deploy
returns zero applied changes and exactly one error. -/
theorem groupDeploy_fatal_conditions_one_error_witness :
    fatalGroupCondition [Change.addition inst1] clientQueryFails (some dmOk)
    ∧ ((deployCustomObjectInstancesGroup [Change.addition inst1] clientQueryFails
          (some dmOk)).1.appliedChanges = []
       ∧ (deployCustomObjectInstancesGroup [Change.addition inst1] clientQueryFails
            (some dmOk)).1.errors.length = 1) :=
  ⟨Or.inr (Or.inr (Or.inr (Or.inr ⟨"ECONNRESET", rfl⟩))),
   groupDeploy_fatal_conditions_one_error [Change.addition inst1] clientQueryFails (some dmOk)
     (Or.inr (Or.inr (Or.inr (Or.inr ⟨"ECONNRESET", rfl⟩))))⟩

end Salto
